import Mathlib

/-!
Verification of the SplatNet 3 Discord presence monitor
(`src/discord/titles/nintendo/splatoon3.ts`) of the nxapi repository.

The TypeScript source is shallowly embedded: times (JavaScript
`Date.getTime()` / `Date.now()` values) are modelled as `Int` milliseconds,
JavaScript `null`/`undefined` as `Option`, and the mutable fields of the
`SplatNet3Monitor` class as an explicit `MonitorState` record threaded
through the methods.
-/

namespace Splatnet3

/-- Embedding of `SplatNet3Monitor.getSchedule`, which is generic over any
record type with `startTime`/`endTime` fields: the accessors are passed as
functions.  The source iterates over the list, skipping entries with
`start.getTime() >= now` or `end.getTime() < now`, and returns the first
remaining entry, or `null` when the loop finishes. -/
def getSchedule {T : Type} (startTime endTime : T → Int) (now : Int) :
    List T → Option T
  | [] => none
  | schedule :: rest =>
    let start := startTime schedule
    let end_ := endTime schedule
    if start ≥ now then getSchedule startTime endTime now rest
    else if end_ < now then getSchedule startTime endTime now rest
    else some schedule

/-- The condition under which `getSchedule` selects an entry: neither skip
branch fires, i.e. `start < now` and `now ≤ end`. -/
def scheduleActive {T : Type} (startTime endTime : T → Int) (now : Int)
    (e : T) : Prop :=
  startTime e < now ∧ now ≤ endTime e

instance {T : Type} (startTime endTime : T → Int) (now : Int) (e : T) :
    Decidable (scheduleActive startTime endTime now e) := by
  unfold scheduleActive; exact inferInstance

/-! ### Data model

Embeddings of the record types from `api/splatnet3-types.ts` that the
monitor reads.  Only the fields the monitor accesses are modelled; ISO
date strings are modelled directly as their `Date.getTime()` values. -/

/-- A VS rule (e.g. Turf War, Tower Control); the monitor only reads its
`name`. -/
structure VsRule where
  name : String
deriving DecidableEq

/-- A VS stage; the monitor reads `id` (for the image URL) and `name`. -/
structure VsStage where
  id : String
  name : String
deriving DecidableEq

/-- The common shape of `regularMatchSetting` / `leagueMatchSetting` /
`xMatchSetting`: a rule and the rotation's stages. -/
structure VsSetting where
  vsRule : VsRule
  vsStages : List VsStage
deriving DecidableEq

/-- `BankaraMatchMode` from `api/splatnet3-types.ts` (imported by the
monitor): the two Anarchy Battle submodes. -/
inductive BankaraMatchMode where
  | CHALLENGE
  | OPEN
deriving DecidableEq

/-- One element of a Bankara schedule node's `bankaraMatchSettings` array:
a `VsSetting` together with the submode it applies to. -/
structure BankaraMatchSetting extends VsSetting where
  mode : BankaraMatchMode
deriving DecidableEq

/-- A node of `StageScheduleResult.regularSchedules` (also used by the
`FEST` branch of the activity callback).  `regularMatchSetting` is null
outside regular rotations. -/
structure RegularNode where
  startTime : Int
  endTime : Int
  regularMatchSetting : Option VsSetting
deriving DecidableEq

/-- A node of `StageScheduleResult.bankaraSchedules`. -/
structure BankaraNode where
  startTime : Int
  endTime : Int
  bankaraMatchSettings : List BankaraMatchSetting
deriving DecidableEq

/-- A node of `StageScheduleResult.festSchedules`. -/
structure FestNode where
  startTime : Int
  endTime : Int
  festMatchSetting : Option VsSetting
deriving DecidableEq

/-- A node of `StageScheduleResult.leagueSchedules`. -/
structure LeagueNode where
  startTime : Int
  endTime : Int
  leagueMatchSetting : Option VsSetting
deriving DecidableEq

/-- A node of `StageScheduleResult.xSchedules`. -/
structure XNode where
  startTime : Int
  endTime : Int
  xMatchSetting : Option VsSetting
deriving DecidableEq

/-- An image record: the monitor reads `image.url` of the co-op stage. -/
structure ImageUrl where
  url : String
deriving DecidableEq

/-- A co-op (Salmon Run) stage. -/
structure CoopStage where
  name : String
  image : ImageUrl
deriving DecidableEq

/-- The `setting` of a co-op schedule node. -/
structure CoopSetting where
  coopStage : CoopStage
deriving DecidableEq

/-- A node of `StageScheduleResult.coopGroupingSchedule.regularSchedules`. -/
structure CoopNode where
  startTime : Int
  endTime : Int
  setting : CoopSetting
deriving DecidableEq

/-- A wrapper holding a `nodes` array, as in the GraphQL responses. -/
structure Nodes (α : Type) where
  nodes : List α
deriving DecidableEq

/-- `StageScheduleResult.coopGroupingSchedule`. -/
structure CoopGroupingSchedule where
  regularSchedules : Nodes CoopNode
deriving DecidableEq

/-- `StageScheduleResult`: the schedule lists the monitor selects from. -/
structure StageScheduleResult where
  regularSchedules : Nodes RegularNode
  bankaraSchedules : Nodes BankaraNode
  festSchedules : Nodes FestNode
  leagueSchedules : Nodes LeagueNode
  xSchedules : Nodes XNode
  coopGroupingSchedule : CoopGroupingSchedule
deriving DecidableEq

/-- `FriendOnlineState` from `api/splatnet3-types.ts`.  The four
`*_MATCHING` / `*_FIGHTING` states are the ones the callback enriches;
`ONLINE` and `OFFLINE` stand for the remaining states of the enum. -/
inductive FriendOnlineState where
  | VS_MODE_MATCHING
  | VS_MODE_FIGHTING
  | COOP_MODE_MATCHING
  | COOP_MODE_FIGHTING
  | ONLINE
  | OFFLINE
deriving DecidableEq

/-- A friend's `vsMode` record: the monitor reads `mode` (e.g. "REGULAR",
"BANKARA"), `id` (base64 ids such as "VnNNb2RlLTI=") and `name`. -/
structure VsMode where
  mode : String
  id : String
  name : String
deriving DecidableEq

/-- A node of `FriendListResult.friends`: the fields the monitor reads. -/
structure Friend where
  id : String
  onlineState : FriendOnlineState
  vsMode : Option VsMode
deriving DecidableEq

/-- `FriendListResult.friends`. -/
structure FriendList where
  nodes : List Friend
deriving DecidableEq

/-- `FriendListResult`. -/
structure FriendListResult where
  friends : FriendList
deriving DecidableEq

/-- `GraphQLResponse<T>`: the `data` wrapper of SplatNet 3 responses. -/
structure GraphQLResponse (α : Type) where
  data : α
deriving DecidableEq

/-- `SplatNet3MonitorConfig`.  `storage` is a `node-persist` storage
object compared by reference in the source; it is modelled by an identity
token. -/
structure SplatNet3MonitorConfig where
  storage : Nat
  na_session_token : String
  znc_proxy_url : Option String
  allow_fetch_token : Bool
  friend_nsaid : Option String
deriving DecidableEq

/-- The mutable state of a `SplatNet3Monitor` instance.
`skip_interval_requested` and `disabled` model the effect of the
`EmbeddedLoop` methods `skipIntervalInCurrentLoop()` and `disable()`
(the loop base class is outside the excerpted source; the spec describes
both methods).  The `splatnet`/`data` API-client fields are not modelled:
the network calls made through them are supplied by `UpdateEnv`. -/
structure MonitorState where
  config : Option SplatNet3MonitorConfig
  skip_interval_requested : Bool
  disabled : Bool
  cached_friends : Option (GraphQLResponse FriendListResult)
  cached_schedules : Option (GraphQLResponse StageScheduleResult)
  friend : Option Friend
  regular_schedule : Option RegularNode
  anarchy_schedule : Option BankaraNode
  fest_schedule : Option FestNode
  league_schedule : Option LeagueNode
  x_schedule : Option XNode
  coop_schedule : Option CoopNode
deriving DecidableEq

/-- Embedding of `SplatNet3Monitor.onUpdateConfig`: four early-return
equality checks (presence, `storage`, `na_session_token`,
`znc_proxy_url`, `allow_fetch_token`); on success the new config is
stored, the current interval is skipped, and `true` is returned. -/
def onUpdateConfig (config : Option SplatNet3MonitorConfig)
    (s : MonitorState) : Bool × MonitorState :=
  if config.isSome ≠ s.config.isSome then (false, s)
  else if config.map (·.storage) ≠ s.config.map (·.storage) then (false, s)
  else if config.map (·.na_session_token) ≠ s.config.map (·.na_session_token) then (false, s)
  else if config.map (·.znc_proxy_url) ≠ s.config.map (·.znc_proxy_url) then (false, s)
  else if config.map (·.allow_fetch_token) ≠ s.config.map (·.allow_fetch_token) then (false, s)
  else (true, { s with config := config, skip_interval_requested := true })

/-- Modelled from the spec: the error-policy verdict
(`classify(error) -> {Retry, Stop}`, §4.2); the monitor source only ever
compares the owner's verdict against `ErrorResult.RETRY` and
`ErrorResult.STOP`. -/
inductive ErrorResult where
  | RETRY
  | STOP
deriving DecidableEq

/-- Modelled from the spec: the loop-result values the monitor returns
from `handleError` (`util/loop.js` is outside the excerpted source);
`OK_SKIP_INTERVAL` makes the loop re-run immediately, `OK` lets it sleep
for the interval. -/
inductive LoopResult where
  | OK
  | OK_SKIP_INTERVAL
deriving DecidableEq

/-- Embedding of `SplatNet3Monitor.handleError`.  The owner's policy
verdict (`this.discord_presence.handleError(err)`) is passed in as
`result`.  On `RETRY` the loop result is `OK_SKIP_INTERVAL` and the state
is untouched; otherwise the cached friend is cleared (and the presence
refreshed, a pure sink call), the loop is disabled on `STOP`, and `OK` is
returned. -/
def handleError (result : ErrorResult) (s : MonitorState) :
    LoopResult × MonitorState :=
  if result = ErrorResult.RETRY then (LoopResult.OK_SKIP_INTERVAL, s)
  else
    let s := { s with friend := none }
    let s := if result = ErrorResult.STOP then { s with disabled := true } else s
    (LoopResult.OK, s)

/-! ### `update()` and its helpers -/

/-- The base64 alphabet used by `Buffer.toString('base64')`. -/
def base64Alphabet : List Char :=
  "ABCDEFGHIJKLMNOPQRSTUVWXYZabcdefghijklmnopqrstuvwxyz0123456789+/".toList

/-- The base64 digit for a 6-bit value. -/
def base64Digit (n : Nat) : Char := base64Alphabet.getD n (Char.ofNat 65)

/-- Standard base64 of a byte list (bytes as `Nat`), with `=` padding,
as produced by Node's `Buffer.toString('base64')`. -/
def base64EncodeBytes : List Nat → List Char
  | [] => []
  | [a] =>
    [base64Digit (a / 4), base64Digit (a % 4 * 16), Char.ofNat 61, Char.ofNat 61]
  | [a, b] =>
    [base64Digit (a / 4), base64Digit (a % 4 * 16 + b / 16),
     base64Digit (b % 16 * 4), Char.ofNat 61]
  | a :: b :: c :: rest =>
    base64Digit (a / 4) :: base64Digit (a % 4 * 16 + b / 16) ::
    base64Digit (b % 16 * 4 + c / 64) :: base64Digit (c % 64) ::
    base64EncodeBytes rest

/-- `Buffer.from(s).toString('base64')`: base64 of the UTF-8 bytes. -/
def bufferToStringBase64 (s : String) : String :=
  String.mk (base64EncodeBytes (s.toUTF8.toList.map (·.toNat)))

/-- Embedding of the `friend_nsaid` getter:
`this.config?.friend_nsaid ?? this.discord_presence.znc_discord_presence.presence_user`. -/
def friend_nsaid (config : Option SplatNet3MonitorConfig)
    (presence_user : Option String) : Option String :=
  (config.bind (·.friend_nsaid)).orElse fun _ => presence_user

/-- The inputs of one `update()` cycle that come from outside the monitor
state: the current time, the results of the network calls the cycle may
make, and the coordinator's configured presence user. -/
structure UpdateEnv where
  now : Int
  friends_refetch : Option (GraphQLResponse FriendListResult)
  schedules_fetch : GraphQLResponse StageScheduleResult
  presence_user : Option String
deriving DecidableEq

/-- Embedding of `SplatNet3Monitor.update`.  Returns the new monitor
state together with the number of `splatnet.getSchedules()` calls the
cycle performed (the forced refetch count).  Mirroring the source: the
cached friends response is consumed (refetching when absent), the tracked
friend is looked up by its base64 `Friend-<nsaid>` id, the regular
schedule is selected from the cached schedules, a single forced refetch
of the schedules happens when that selection is empty, and every other
selection is then computed from the (possibly refetched) cached
schedules.  The `refreshPresence()` sink call has no monitor-state
effect. -/
def update (env : UpdateEnv) (s : MonitorState) : MonitorState × Nat :=
  let friends := match s.cached_friends with
    | some f => some f
    | none => env.friends_refetch
  let s := { s with cached_friends := none }
  let friend_id := bufferToStringBase64
    ("Friend-" ++ (friend_nsaid s.config env.presence_user).getD "undefined")
  let friend := friends.bind fun fr =>
    fr.data.friends.nodes.find? fun f => f.id == friend_id
  let s := { s with friend := friend }
  let reg1 := getSchedule RegularNode.startTime RegularNode.endTime env.now
    ((s.cached_schedules.map fun cs => cs.data.regularSchedules.nodes).getD [])
  let s := { s with regular_schedule := reg1 }
  let (s, fetch_count) : MonitorState × Nat :=
    match s.regular_schedule with
    | some _ => (s, 0)
    | none =>
      let s := { s with cached_schedules := some env.schedules_fetch }
      let reg2 := getSchedule RegularNode.startTime RegularNode.endTime env.now
        ((s.cached_schedules.map fun cs => cs.data.regularSchedules.nodes).getD [])
      ({ s with regular_schedule := reg2 }, 1)
  let anarchy := getSchedule BankaraNode.startTime BankaraNode.endTime env.now
    ((s.cached_schedules.map fun cs => cs.data.bankaraSchedules.nodes).getD [])
  let fest := getSchedule FestNode.startTime FestNode.endTime env.now
    ((s.cached_schedules.map fun cs => cs.data.festSchedules.nodes).getD [])
  let league := getSchedule LeagueNode.startTime LeagueNode.endTime env.now
    ((s.cached_schedules.map fun cs => cs.data.leagueSchedules.nodes).getD [])
  let x := getSchedule XNode.startTime XNode.endTime env.now
    ((s.cached_schedules.map fun cs => cs.data.xSchedules.nodes).getD [])
  let coop := getSchedule CoopNode.startTime CoopNode.endTime env.now
    ((s.cached_schedules.map fun cs => cs.data.coopGroupingSchedule.regularSchedules.nodes).getD [])
  let s := { s with anarchy_schedule := anarchy, fest_schedule := fest,
                    league_schedule := league, x_schedule := x, coop_schedule := coop }
  (s, fetch_count)

/-- Every schedule entry of every kind lies in the past (`end < now`):
the exhausted-cache condition of the refetch claim. -/
def schedulesAllPast (now : Int) (sched : StageScheduleResult) : Prop :=
  (∀ e ∈ sched.regularSchedules.nodes, e.endTime < now) ∧
  (∀ e ∈ sched.bankaraSchedules.nodes, e.endTime < now) ∧
  (∀ e ∈ sched.festSchedules.nodes, e.endTime < now) ∧
  (∀ e ∈ sched.leagueSchedules.nodes, e.endTime < now) ∧
  (∀ e ∈ sched.xSchedules.nodes, e.endTime < now) ∧
  (∀ e ∈ sched.coopGroupingSchedule.regularSchedules.nodes, e.endTime < now)

instance (now : Int) (sched : StageScheduleResult) :
    Decidable (schedulesAllPast now sched) := by
  unfold schedulesAllPast; exact inferInstance

/-! ### The activity-descriptor callback -/

/-- The `product` string from `util/product.js` (outside the excerpted
source): a constant product/version label appended to image alt-texts.
Its value is irrelevant to the monitor's logic. -/
def product : String := "nxapi"

/-- The fields of the `DiscordRPC.Presence` activity descriptor that the
callback reads or writes. -/
structure Activity where
  details : Option String
  largeImageKey : Option String
  largeImageText : Option String
  smallImageKey : Option String
  smallImageText : Option String
deriving DecidableEq

/-- The hexadecimal digit characters used by percent-encoding. -/
def hexDigits : List Char := "0123456789ABCDEF".toList

/-- One byte under `application/x-www-form-urlencoded` encoding
(`URLSearchParams.toString()`): unreserved bytes pass through, space
becomes `+`, everything else is percent-encoded. -/
def formUrlEncodeByte (b : Nat) : List Char :=
  if (65 ≤ b ∧ b ≤ 90) ∨ (97 ≤ b ∧ b ≤ 122) ∨ (48 ≤ b ∧ b ≤ 57) ∨
      b = 42 ∨ b = 45 ∨ b = 46 ∨ b = 95 then [Char.ofNat b]
  else if b = 32 then [Char.ofNat 43]
  else [Char.ofNat 37, hexDigits.getD (b / 16) (Char.ofNat 48),
        hexDigits.getD (b % 16) (Char.ofNat 48)]

/-- Form-url-encoding of a string's UTF-8 bytes. -/
def formUrlEncode (s : String) : String :=
  String.mk (((s.toUTF8.toList.map (·.toNat)).map formUrlEncodeByte).flatten)

/-- `new URLSearchParams({...}).toString()`: `k=v` pairs joined by `&`,
keys and values form-url-encoded. -/
def urlSearchParams (params : List (String × String)) : String :=
  String.intercalate "&"
    (params.map fun kv => formUrlEncode kv.1 ++ "=" ++ formUrlEncode kv.2)

/-- The `pathname` of `new URL(url)` for an absolute `http(s)` URL: the
part after the host, up to the query or fragment. -/
def urlPathname (url : String) : String :=
  let rest := match url.splitOn "://" with
    | _ :: r :: rs => String.intercalate "://" (r :: rs)
    | _ => url
  let path := rest.toList.dropWhile (fun c => c ≠ Char.ofNat 47)
  String.mk (path.takeWhile (fun c => c ≠ Char.ofNat 63 ∧ c ≠ Char.ofNat 35))

/-- The regular-expression match `pathname.match(/^\/resources\/prod\/(.+)$/)`,
returning the captured group (JavaScript `.` does not match a newline;
the stage-image pathnames contain none). -/
def coopImagePathMatch (pathname : String) : Option String :=
  if pathname.startsWith "/resources/prod/" ∧
      "/resources/prod/".length < pathname.length
  then some (pathname.drop "/resources/prod/".length)
  else none

/-- The callback's `mode_image` constant: the small-image asset key for
the friend's VS mode. -/
def modeImage : Option VsMode → Option String
  | none => none
  | some vm =>
    if vm.mode = "REGULAR" then some "mode-regular-1"
    else if vm.mode = "BANKARA" then some "mode-anarchy-1"
    else if vm.mode = "FEST" then some "mode-fest-1"
    else if vm.mode = "LEAGUE" then some "mode-league-1"
    else if vm.mode = "X_MATCH" then some "mode-x-1"
    else none

/-- The callback's `mode_name` constant: the display name for the
friend's VS mode (the two Anarchy submodes are recognised by the
`vsMode.id` values `VsMode-2` / `VsMode-51` in base64). -/
def modeName : Option VsMode → Option String
  | none => none
  | some vm =>
    if vm.mode = "REGULAR" then some "Regular Battle"
    else if vm.id = "VnNNb2RlLTI=" then some "Anarchy Battle (Series)"
    else if vm.id = "VnNNb2RlLTUx" then some "Anarchy Battle (Open)"
    else if vm.mode = "BANKARA" then some "Anarchy Battle"
    else if vm.mode = "FEST" then some "Splatfest Battle"
    else if vm.mode = "LEAGUE" then some "League Battle"
    else if vm.mode = "X_MATCH" then some "X Battle"
    else none

/-- The callback's `schedule_setting` constant: the match setting of the
currently selected schedule entry for the friend's VS mode.  Note that
the `FEST` branch of the source reads `monitor.regular_schedule`, not
`monitor.fest_schedule`. -/
def scheduleSetting (monitor : MonitorState) : Option VsMode → Option VsSetting
  | none => none
  | some vm =>
    if vm.mode = "REGULAR" then monitor.regular_schedule.bind (·.regularMatchSetting)
    else if vm.mode = "BANKARA" then
      if vm.id = "VnNNb2RlLTI=" then
        (monitor.anarchy_schedule.bind fun sc =>
          sc.bankaraMatchSettings.find? fun st => st.mode == BankaraMatchMode.CHALLENGE).map
          (·.toVsSetting)
      else if vm.id = "VnNNb2RlLTUx" then
        (monitor.anarchy_schedule.bind fun sc =>
          sc.bankaraMatchSettings.find? fun st => st.mode == BankaraMatchMode.OPEN).map
          (·.toVsSetting)
      else none
    else if vm.mode = "FEST" then monitor.regular_schedule.bind (·.regularMatchSetting)
    else if vm.mode = "LEAGUE" then monitor.league_schedule.bind (·.leagueMatchSetting)
    else if vm.mode = "X_MATCH" then monitor.x_schedule.bind (·.xMatchSetting)
    else none

/-- A placeholder stage for out-of-range `vsStages[i]` accesses (the
SplatNet 3 rotations always carry two stages, so the source indexes
`vsStages[0]` and `vsStages[1]` unconditionally). -/
def defaultVsStage : VsStage := { id := "", name := "" }

/-- Embedding of the exported `callback(activity, game, context)`.  The
`context?.monitors?.find(m => m instanceof SplatNet3Monitor)` lookup is
modelled by the `monitor : Option MonitorState` argument; the unused
`game` argument is dropped.  The callback mutates `activity` in place;
here the updated descriptor is returned. -/
def callback (activity : Activity) (monitor : Option MonitorState) : Activity :=
  match monitor with
  | none => activity
  | some monitor =>
  match monitor.friend with
  | none => activity
  | some friend =>
    let mode_image := modeImage friend.vsMode
    let mode_name := modeName friend.vsMode
    let schedule_setting := scheduleSetting monitor friend.vsMode
    let activity1 :=
      match friend.vsMode with
      | none => activity
      | some vsMode =>
        if friend.onlineState = FriendOnlineState.VS_MODE_MATCHING ∨
            friend.onlineState = FriendOnlineState.VS_MODE_FIGHTING then
          let details := (mode_name.getD vsMode.name) ++
            (match schedule_setting with
             | some sc => " - " ++ sc.vsRule.name
             | none => "") ++
            (if friend.onlineState = FriendOnlineState.VS_MODE_MATCHING
             then " (matching)" else "")
          let a := { activity with details := some details }
          let a :=
            match schedule_setting with
            | some sc =>
              { a with
                largeImageKey := some ("https://fancy.org.uk/api/nxapi/s3/image?" ++
                  urlSearchParams [("a", (sc.vsStages.getD 0 defaultVsStage).id),
                                   ("b", (sc.vsStages.getD 1 defaultVsStage).id),
                                   ("v", "2022092104")]),
                largeImageText := some (String.intercalate "/"
                  (sc.vsStages.map fun (stg : VsStage) => stg.name) ++ " | " ++ product) }
            | none => a
          { a with smallImageKey := mode_image,
                   smallImageText := some (mode_name.getD vsMode.name) }
        else activity
    if friend.onlineState = FriendOnlineState.COOP_MODE_MATCHING ∨
        friend.onlineState = FriendOnlineState.COOP_MODE_FIGHTING then
      let a := { activity1 with details := some ("Salmon Run" ++
        (if friend.onlineState = FriendOnlineState.COOP_MODE_MATCHING
         then " (matching)" else "")) }
      match monitor.coop_schedule with
      | some coop =>
        let pathname := urlPathname coop.setting.coopStage.image.url
        match coopImagePathMatch pathname with
        | some captured =>
          { a with
            largeImageKey := some ("https://splatoon3.ink/assets/splatnet/" ++ captured),
            largeImageText := some (coop.setting.coopStage.name ++ " | " ++ product) }
        | none => a
      | none => a
    else activity1

/-! ### Tenant cache model (Distribution Layer)

Modelled from the spec: the multi-tenant cache/coalescing layer
(§3 Tenant Cache Entry, §4.5) is not part of the excerpted source.  One
`(account key, resource type)` pair is modelled; concurrency is modelled
by an arbitrary interleaving of `request` and `complete` events against
the cache state, mutual exclusion on the in-flight marker being the
atomicity the spec demands. -/

/-- Modelled from the spec: the tenant cache entry for one
`(account key, resource type)` pair — the number of upstream fetches in
flight, the callers attached to the in-flight fetch, and the cached
response with its timestamp. -/
structure TenantCacheState (V : Type) where
  in_flight : Nat
  waiters : List Nat
  cached : Option (Int × V)
deriving DecidableEq

/-- Modelled from the spec: whether a cached value is fresh — its age is
below the configured minimum refetch interval. -/
def cacheFresh {V : Type} (minInterval now : Int) (s : TenantCacheState V) :
    Option V :=
  match s.cached with
  | some (t, v) => if now - t < minInterval then some v else none
  | none => none

/-- Modelled from the spec: a caller's `fetch(accountKey, resourceType)`.
Returns the new state, the value served immediately from the cache (if
fresh), and the number of upstream fetches issued by this call: a caller
that finds a fetch in flight attaches to it instead of issuing a
duplicate. -/
def cacheRequest {V : Type} (minInterval now : Int) (caller : Nat)
    (s : TenantCacheState V) : TenantCacheState V × Option V × Nat :=
  match cacheFresh minInterval now s with
  | some v => (s, some v, 0)
  | none =>
    if s.in_flight = 0 then
      ({ s with in_flight := s.in_flight + 1, waiters := [caller] }, none, 1)
    else
      ({ s with waiters := s.waiters ++ [caller] }, none, 0)

/-- Modelled from the spec: completion of the in-flight upstream fetch.
Every attached caller receives the same result; a success is cached with
its timestamp, a failure is never cached. -/
def cacheComplete {V E : Type} (now : Int) (result : Except E V)
    (s : TenantCacheState V) :
    TenantCacheState V × List (Nat × Except E V) :=
  ({ in_flight := s.in_flight - 1,
     waiters := [],
     cached := match result with
       | Except.ok v => some (now, v)
       | Except.error _ => s.cached },
   s.waiters.map fun c => (c, result))

/-- Modelled from the spec: one event against the tenant cache. -/
inductive CacheEvent (V E : Type) where
  | request (now : Int) (caller : Nat)
  | complete (now : Int) (result : Except E V)

/-- Modelled from the spec: the state transition of one cache event. -/
def cacheStep {V E : Type} (minInterval : Int) (s : TenantCacheState V) :
    CacheEvent V E → TenantCacheState V
  | CacheEvent.request now caller => (cacheRequest minInterval now caller s).1
  | CacheEvent.complete now result => (cacheComplete now result s).1

/-- Modelled from the spec: the cache state reached from the empty cache
by a sequence of interleaved events. -/
def cacheRun {V E : Type} (minInterval : Int) (events : List (CacheEvent V E)) :
    TenantCacheState V :=
  events.foldl (cacheStep minInterval) { in_flight := 0, waiters := [], cached := none }

/-- A freshly constructed, unconfigured monitor state: all caches and
selections empty, no skip request, not disabled. -/
def emptyMonitorState : MonitorState where
  config := none
  skip_interval_requested := false
  disabled := false
  cached_friends := none
  cached_schedules := none
  friend := none
  regular_schedule := none
  anarchy_schedule := none
  fest_schedule := none
  league_schedule := none
  x_schedule := none
  coop_schedule := none

/-- A schedule response carrying no entries of any kind. -/
def emptyStageScheduleResult : StageScheduleResult where
  regularSchedules := { nodes := [] }
  bankaraSchedules := { nodes := [] }
  festSchedules := { nodes := [] }
  leagueSchedules := { nodes := [] }
  xSchedules := { nodes := [] }
  coopGroupingSchedule := { regularSchedules := { nodes := [] } }

/-- A regular-schedule node active on `(0, 10]` whose rule is Turf War. -/
def sampleRegularNode : RegularNode where
  startTime := 0
  endTime := 10
  regularMatchSetting := some { vsRule := { name := "Turf War" }, vsStages := [] }

/-- A fest-schedule node active on `(0, 10]` whose rule is Tricolor Turf
War. -/
def sampleFestNode : FestNode where
  startTime := 0
  endTime := 10
  festMatchSetting := some { vsRule := { name := "Tricolor Turf War" }, vsStages := [] }

/-- The `vsMode` record of a friend in a Splatfest battle. -/
def sampleFestVsMode : VsMode where
  mode := "FEST"
  id := "VnNNb2RlLTY="
  name := "Splatfest Battle"

/-- A schedule response whose only entries are `sampleRegularNode` and
`sampleFestNode`. -/
def sampleFestSchedules : StageScheduleResult :=
  { emptyStageScheduleResult with
    regularSchedules := { nodes := [sampleRegularNode] },
    festSchedules := { nodes := [sampleFestNode] } }

/-- A monitor state observed at `now = 5`: the friend is fighting in a
Splatfest battle, the cached schedules are `sampleFestSchedules`, and the
per-kind selections are the ones `update()` computes from them. -/
def sampleFestMonitor : MonitorState :=
  { emptyMonitorState with
    friend := some { id := "f", onlineState := FriendOnlineState.VS_MODE_FIGHTING,
                     vsMode := some sampleFestVsMode },
    cached_schedules := some { data := sampleFestSchedules },
    regular_schedule :=
      getSchedule RegularNode.startTime RegularNode.endTime 5
        sampleFestSchedules.regularSchedules.nodes,
    fest_schedule :=
      getSchedule FestNode.startTime FestNode.endTime 5
        sampleFestSchedules.festSchedules.nodes }

/-- A friend who is matchmaking for a Regular Battle. -/
def sampleRegularFriend : Friend where
  id := "f"
  onlineState := FriendOnlineState.VS_MODE_MATCHING
  vsMode := some { mode := "REGULAR", id := "VnNNb2RlLTE=", name := "Regular Battle" }

/-- A monitor state at `now = 5` whose regular-schedule selection is the
unique active entry `sampleRegularNode`, tracking `sampleRegularFriend`. -/
def sampleRegularMonitor : MonitorState :=
  { emptyMonitorState with
    friend := some sampleRegularFriend,
    regular_schedule :=
      getSchedule RegularNode.startTime RegularNode.endTime 5 [sampleRegularNode] }

/-- An activity descriptor with every field empty. -/
def emptyActivity : Activity where
  details := none
  largeImageKey := none
  largeImageText := none
  smallImageKey := none
  smallImageText := none

theorem getSchedule_eq_none_iff {T : Type} (st en : T → Int) (now : Int)
    (l : List T) :
    getSchedule st en now l = none ↔ ∀ e ∈ l, ¬ scheduleActive st en now e := by
  induction l with
  | nil => simp [getSchedule]
  | cons a rest ih =>
    by_cases h1 : st a ≥ now
    · simp only [getSchedule, if_pos h1, ih, List.mem_cons]
      constructor
      · intro h e he
        rcases he with rfl | he
        · exact fun hc => absurd hc.1 (not_lt.mpr h1)
        · exact h e he
      · intro h e he; exact h e (Or.inr he)
    · by_cases h2 : en a < now
      · simp only [getSchedule, if_neg h1, if_pos h2, ih, List.mem_cons]
        constructor
        · intro h e he
          rcases he with rfl | he
          · exact fun hc => absurd hc.2 (not_le.mpr h2)
          · exact h e he
        · intro h e he; exact h e (Or.inr he)
      · simp only [getSchedule, if_neg h1, if_neg h2, List.mem_cons]
        constructor
        · intro h; exact absurd h (by simp)
        · intro h
          exact absurd ⟨not_le.mp h1, not_lt.mp h2⟩ (h a (Or.inl rfl))

theorem getSchedule_eq_some_iff {T : Type} (st en : T → Int) (now : Int)
    (l : List T) (x : T) :
    getSchedule st en now l = some x ↔
      scheduleActive st en now x ∧
      ∃ l1 l2, l = l1 ++ x :: l2 ∧ ∀ y ∈ l1, ¬ scheduleActive st en now y := by
  induction l with
  | nil => simp [getSchedule]
  | cons a rest ih =>
    by_cases h1 : st a ≥ now
    · simp only [getSchedule, if_pos h1, ih]
      constructor
      · rintro ⟨hx, l1, l2, rfl, hl1⟩
        refine ⟨hx, a :: l1, l2, rfl, ?_⟩
        intro y hy
        rcases List.mem_cons.mp hy with rfl | hy
        · exact fun hc => absurd hc.1 (not_lt.mpr h1)
        · exact hl1 y hy
      · rintro ⟨hx, l1, l2, heq, hl1⟩
        refine ⟨hx, ?_⟩
        cases l1 with
        | nil =>
          exfalso
          simp only [List.nil_append, List.cons.injEq] at heq
          obtain ⟨rfl, _⟩ := heq
          exact absurd hx.1 (not_lt.mpr h1)
        | cons b l1' =>
          simp only [List.cons_append, List.cons.injEq] at heq
          obtain ⟨rfl, rfl⟩ := heq
          exact ⟨l1', l2, rfl, fun y hy => hl1 y (List.mem_cons_of_mem a hy)⟩
    · by_cases h2 : en a < now
      · simp only [getSchedule, if_neg h1, if_pos h2, ih]
        constructor
        · rintro ⟨hx, l1, l2, rfl, hl1⟩
          refine ⟨hx, a :: l1, l2, rfl, ?_⟩
          intro y hy
          rcases List.mem_cons.mp hy with rfl | hy
          · exact fun hc => absurd hc.2 (not_le.mpr h2)
          · exact hl1 y hy
        · rintro ⟨hx, l1, l2, heq, hl1⟩
          refine ⟨hx, ?_⟩
          cases l1 with
          | nil =>
            exfalso
            simp only [List.nil_append, List.cons.injEq] at heq
            obtain ⟨rfl, _⟩ := heq
            exact absurd hx.2 (not_le.mpr h2)
          | cons b l1' =>
            simp only [List.cons_append, List.cons.injEq] at heq
            obtain ⟨rfl, rfl⟩ := heq
            exact ⟨l1', l2, rfl, fun y hy => hl1 y (List.mem_cons_of_mem a hy)⟩
      · simp only [getSchedule, if_neg h1, if_neg h2, Option.some.injEq]
        constructor
        · rintro rfl
          exact ⟨⟨not_le.mp h1, not_lt.mp h2⟩, [], rest, rfl, by simp⟩
        · rintro ⟨hx, l1, l2, heq, hl1⟩
          cases l1 with
          | nil =>
            simp only [List.nil_append, List.cons.injEq] at heq
            exact heq.1
          | cons b l1' =>
            exfalso
            simp only [List.cons_append, List.cons.injEq] at heq
            obtain ⟨rfl, _⟩ := heq
            exact hl1 a (List.mem_cons_self a l1')
              ⟨not_le.mp h1, not_lt.mp h2⟩

theorem getSchedule_mem {T : Type} (st en : T → Int) (now : Int)
    (l : List T) (x : T) (h : getSchedule st en now l = some x) : x ∈ l := by
  rcases (getSchedule_eq_some_iff st en now l x).mp h with ⟨_, l1, l2, rfl, _⟩
  simp

theorem getSchedule_of_unique_active {T : Type} (st en : T → Int) (now : Int)
    (l : List T) (P : T) (hmem : P ∈ l) (hact : scheduleActive st en now P)
    (huniq : ∀ y ∈ l, scheduleActive st en now y → y = P) :
    getSchedule st en now l = some P := by
  cases hres : getSchedule st en now l with
  | none =>
    exact absurd hact ((getSchedule_eq_none_iff st en now l).mp hres P hmem)
  | some z =>
    rcases (getSchedule_eq_some_iff st en now l z).mp hres with ⟨hz, _, _, heq, _⟩
    have : z ∈ l := getSchedule_mem st en now l z hres
    rw [huniq z this hz]

/-! ### Claim C1 -/

/-- C1 (counterexample): the claim says `getSchedule` returns the first
entry whose `[start, end)` interval contains `now`, i.e. the first entry
with `start ≤ now < end`.  At `now = 0` the single entry with
`start = 0`, `end = 10` satisfies `start ≤ now < end`, yet `getSchedule`
returns `none`: the source skips entries with `start.getTime() >= now`. -/
theorem getSchedule_boundary_counterexample :
    getSchedule RegularNode.startTime RegularNode.endTime 0
      [{ startTime := 0, endTime := 10, regularMatchSetting := none }] = none ∧
    ({ startTime := 0, endTime := 10, regularMatchSetting := none } : RegularNode).startTime ≤ 0 ∧
    (0 : Int) < ({ startTime := 0, endTime := 10, regularMatchSetting := none } : RegularNode).endTime := by
  decide

/-- C1 (amended): for every list of schedule entries and every `now`,
`getSchedule` returns the first entry whose `(start, end]` interval
contains `now`, i.e. the first entry with `start < now ≤ end`
(`scheduleActive`), and returns `none` (an empty selection, not an
error) when no entry satisfies this. -/
theorem getSchedule_first_strict_interval {T : Type} (st en : T → Int)
    (now : Int) (l : List T) :
    (getSchedule st en now l = none ↔ ∀ e ∈ l, ¬ scheduleActive st en now e) ∧
    (∀ x, getSchedule st en now l = some x →
      scheduleActive st en now x ∧
      ∃ l1 l2, l = l1 ++ x :: l2 ∧ ∀ y ∈ l1, ¬ scheduleActive st en now y) :=
  ⟨getSchedule_eq_none_iff st en now l,
   fun x h => (getSchedule_eq_some_iff st en now l x).mp h⟩

/-- C1 (witness): on a two-entry list whose first entry has not started
yet, `getSchedule` at `now = 3` returns the second entry, and the amended
theorem yields its activity and first-match decomposition. -/
theorem getSchedule_first_strict_interval_witness :
    scheduleActive RegularNode.startTime RegularNode.endTime 3
      { startTime := 0, endTime := 10, regularMatchSetting := none } ∧
    ∃ l1 l2,
      [({ startTime := 5, endTime := 10, regularMatchSetting := none } : RegularNode),
       { startTime := 0, endTime := 10, regularMatchSetting := none }] =
        l1 ++ { startTime := 0, endTime := 10, regularMatchSetting := none } :: l2 ∧
      ∀ y ∈ l1, ¬ scheduleActive RegularNode.startTime RegularNode.endTime 3 y :=
  (getSchedule_first_strict_interval RegularNode.startTime RegularNode.endTime 3
    [{ startTime := 5, endTime := 10, regularMatchSetting := none },
     { startTime := 0, endTime := 10, regularMatchSetting := none }]).2
    { startTime := 0, endTime := 10, regularMatchSetting := none } (by decide)

/-! ### Claim C2 -/

/-- C2 (counterexample): the claim says the result of `getSchedule` is
the same for any two input orderings that preserve the set of entries.
With two entries that are both active at `now = 5`, swapping the input
order changes the result. -/
theorem getSchedule_order_dependence_counterexample :
    ([({ startTime := 0, endTime := 10, regularMatchSetting := none } : RegularNode),
      { startTime := 1, endTime := 10, regularMatchSetting := none }]).Perm
      [{ startTime := 1, endTime := 10, regularMatchSetting := none },
       { startTime := 0, endTime := 10, regularMatchSetting := none }] ∧
    getSchedule RegularNode.startTime RegularNode.endTime 5
      [{ startTime := 0, endTime := 10, regularMatchSetting := none },
       { startTime := 1, endTime := 10, regularMatchSetting := none }] ≠
    getSchedule RegularNode.startTime RegularNode.endTime 5
      [{ startTime := 1, endTime := 10, regularMatchSetting := none },
       { startTime := 0, endTime := 10, regularMatchSetting := none }] :=
  ⟨List.Perm.swap _ _ _, by decide⟩

/-- C2 (amended): `getSchedule` is a deterministic scan in input order in
which the first entry whose `(start, end]` interval contains `now` wins,
so its result is independent of input reordering whenever at most one
active entry exists (up to equality); with several distinct simultaneously
active entries the input order decides. -/
theorem getSchedule_perm_invariant {T : Type} (st en : T → Int) (now : Int)
    (l1 l2 : List T) (hp : l1.Perm l2)
    (huniq : ∀ x ∈ l1, ∀ y ∈ l1,
      scheduleActive st en now x → scheduleActive st en now y → x = y) :
    getSchedule st en now l1 = getSchedule st en now l2 := by
  cases h1 : getSchedule st en now l1 with
  | none =>
    rw [getSchedule_eq_none_iff] at h1
    symm
    rw [getSchedule_eq_none_iff]
    intro e he
    exact h1 e (hp.mem_iff.mpr he)
  | some x =>
    have hx : scheduleActive st en now x :=
      ((getSchedule_eq_some_iff st en now l1 x).mp h1).1
    have hxm : x ∈ l1 := getSchedule_mem st en now l1 x h1
    cases h2 : getSchedule st en now l2 with
    | none =>
      rw [getSchedule_eq_none_iff] at h2
      exact absurd hx (h2 x (hp.mem_iff.mp hxm))
    | some y =>
      have hy : scheduleActive st en now y :=
        ((getSchedule_eq_some_iff st en now l2 y).mp h2).1
      have hym : y ∈ l1 := hp.mem_iff.mpr (getSchedule_mem st en now l2 y h2)
      rw [huniq x hxm y hym hx hy]

/-- C2 (witness): on a two-entry list with exactly one active entry,
swapping the input order leaves the selection unchanged. -/
theorem getSchedule_perm_invariant_witness :
    getSchedule RegularNode.startTime RegularNode.endTime 3
      [{ startTime := 5, endTime := 10, regularMatchSetting := none },
       { startTime := 0, endTime := 10, regularMatchSetting := none }] =
    getSchedule RegularNode.startTime RegularNode.endTime 3
      [{ startTime := 0, endTime := 10, regularMatchSetting := none },
       { startTime := 5, endTime := 10, regularMatchSetting := none }] :=
  getSchedule_perm_invariant RegularNode.startTime RegularNode.endTime 3
    [{ startTime := 5, endTime := 10, regularMatchSetting := none },
     { startTime := 0, endTime := 10, regularMatchSetting := none }]
    [{ startTime := 0, endTime := 10, regularMatchSetting := none },
     { startTime := 5, endTime := 10, regularMatchSetting := none }]
    (List.Perm.swap _ _ _) (by decide)

/-! ### Claim C10 -/

/-- C10: `getSchedule` is total (it is a terminating function on all
inputs), returns `none` on the empty list, and any non-`none` result is
an element of the input list. -/
theorem getSchedule_total_and_mem {T : Type} (st en : T → Int) (now : Int)
    (l : List T) :
    getSchedule st en now ([] : List T) = none ∧
    ∀ x, getSchedule st en now l = some x → x ∈ l :=
  ⟨rfl, fun x h => getSchedule_mem st en now l x h⟩

/-- C10 (witness): on a singleton active list the returned entry is a
member of the input. -/
theorem getSchedule_total_and_mem_witness :
    ({ startTime := 0, endTime := 10, regularMatchSetting := none } : RegularNode) ∈
      [({ startTime := 0, endTime := 10, regularMatchSetting := none } : RegularNode)] :=
  (getSchedule_total_and_mem RegularNode.startTime RegularNode.endTime 5
    [{ startTime := 0, endTime := 10, regularMatchSetting := none }]).2
    { startTime := 0, endTime := 10, regularMatchSetting := none } (by decide)

/-! ### Claim C4 -/

/-- C4: `onUpdateConfig(newConfig)` applies the new configuration in
place (storing it and requesting that the current interval be skipped)
and returns `true` exactly when the new configuration is equivalent to
the current one under the monitor's equality check — both present or
both absent, and equal `storage`, `na_session_token`, `znc_proxy_url`
and `allow_fetch_token`; otherwise it leaves the stored configuration
(and the rest of the state) unchanged and returns `false`. -/
theorem onUpdateConfig_equivalence (config : Option SplatNet3MonitorConfig)
    (s : MonitorState) :
    onUpdateConfig config s =
      if config.isSome = s.config.isSome ∧
          config.map (·.storage) = s.config.map (·.storage) ∧
          config.map (·.na_session_token) = s.config.map (·.na_session_token) ∧
          config.map (·.znc_proxy_url) = s.config.map (·.znc_proxy_url) ∧
          config.map (·.allow_fetch_token) = s.config.map (·.allow_fetch_token)
      then (true, { s with config := config, skip_interval_requested := true })
      else (false, s) := by
  unfold onUpdateConfig
  split_ifs <;> tauto

/-! ### Claim C5 -/

/-- C5: when the owner's error policy classifies the error `RETRY`,
`handleError` returns `OK_SKIP_INTERVAL` (the loop re-runs immediately)
and the monitor state — including every cache — is untouched; when it
classifies it `STOP`, the monitor clears its cached friend and disables
itself, returning `OK`, while the cached schedule snapshots and schedule
selections are all kept (only `friend` and `disabled` change in the
record update). -/
theorem handleError_retry_and_stop (s : MonitorState) :
    handleError ErrorResult.RETRY s = (LoopResult.OK_SKIP_INTERVAL, s) ∧
    handleError ErrorResult.STOP s =
      (LoopResult.OK, { s with friend := none, disabled := true }) :=
  ⟨rfl, rfl⟩

/-! ### Claim C9 -/

/-- C9: two present configurations that agree on `storage`,
`na_session_token`, `znc_proxy_url` and `allow_fetch_token` but differ in
`friend_nsaid` are accepted in place: `onUpdateConfig` returns `true`,
stores the new configuration (so the `friend_nsaid` getter now resolves
from the new configuration, changing which friend the monitor tracks),
and requests that the current interval be skipped so the next cycle runs
immediately. -/
theorem onUpdateConfig_friend_change (c1 c2 : SplatNet3MonitorConfig)
    (s : MonitorState) (hc : s.config = some c1)
    (h1 : c2.storage = c1.storage)
    (h2 : c2.na_session_token = c1.na_session_token)
    (h3 : c2.znc_proxy_url = c1.znc_proxy_url)
    (h4 : c2.allow_fetch_token = c1.allow_fetch_token)
    (h5 : c2.friend_nsaid ≠ c1.friend_nsaid) :
    onUpdateConfig (some c2) s =
      (true, { s with config := some c2, skip_interval_requested := true }) ∧
    ∀ presence_user,
      friend_nsaid (onUpdateConfig (some c2) s).2.config presence_user =
        friend_nsaid (some c2) presence_user := by
  have : onUpdateConfig (some c2) s =
      (true, { s with config := some c2, skip_interval_requested := true }) := by
    unfold onUpdateConfig
    rw [hc]
    simp [h1, h2, h3, h4]
  exact ⟨this, fun presence_user => by rw [this]⟩

/-- C9 (witness): a concrete reconfiguration that only changes
`friend_nsaid` is applied in place with a skip request. -/
theorem onUpdateConfig_friend_change_witness :
    onUpdateConfig
        (some { storage := 0, na_session_token := "token", znc_proxy_url := none,
                allow_fetch_token := true, friend_nsaid := some "1234" })
        { emptyMonitorState with
          config := some { storage := 0, na_session_token := "token",
                           znc_proxy_url := none, allow_fetch_token := true,
                           friend_nsaid := none } } =
      (true,
        { emptyMonitorState with
          config := some { storage := 0, na_session_token := "token",
                           znc_proxy_url := none, allow_fetch_token := true,
                           friend_nsaid := some "1234" },
          skip_interval_requested := true }) :=
  (onUpdateConfig_friend_change
    { storage := 0, na_session_token := "token", znc_proxy_url := none,
      allow_fetch_token := true, friend_nsaid := none }
    { storage := 0, na_session_token := "token", znc_proxy_url := none,
      allow_fetch_token := true, friend_nsaid := some "1234" }
    { emptyMonitorState with
      config := some { storage := 0, na_session_token := "token",
                       znc_proxy_url := none, allow_fetch_token := true,
                       friend_nsaid := none } }
    rfl rfl rfl rfl rfl (by decide)).1

theorem getSchedule_none_of_all_past {T : Type} (st en : T → Int) (now : Int)
    (l : List T) (h : ∀ e ∈ l, en e < now) :
    getSchedule st en now l = none :=
  (getSchedule_eq_none_iff st en now l).mpr
    fun e he hact => absurd hact.2 (not_le.mpr (h e he))

/-! ### Claim C3 -/

/-- C3: in every single `update()` cycle, at most one forced refetch of
the schedules (`splatnet.getSchedules()`) is issued; when the cached
schedule set is absent or exhausted (every cached entry of every kind in
the past), it is issued exactly once; and whenever it is issued, the
cached schedules are replaced by the refetched response and every
schedule kind's selection for the cycle — including the ones that may
settle on "no active schedule" — is computed from that refetched
response. -/
theorem update_refetch_exactly_once (env : UpdateEnv) (s : MonitorState) :
    (update env s).2 ≤ 1 ∧
    ((∀ cs, s.cached_schedules = some cs → schedulesAllPast env.now cs.data) →
      (update env s).2 = 1) ∧
    ((update env s).2 = 1 →
      (update env s).1.cached_schedules = some env.schedules_fetch ∧
      (update env s).1.regular_schedule =
        getSchedule RegularNode.startTime RegularNode.endTime env.now
          env.schedules_fetch.data.regularSchedules.nodes ∧
      (update env s).1.anarchy_schedule =
        getSchedule BankaraNode.startTime BankaraNode.endTime env.now
          env.schedules_fetch.data.bankaraSchedules.nodes ∧
      (update env s).1.fest_schedule =
        getSchedule FestNode.startTime FestNode.endTime env.now
          env.schedules_fetch.data.festSchedules.nodes ∧
      (update env s).1.league_schedule =
        getSchedule LeagueNode.startTime LeagueNode.endTime env.now
          env.schedules_fetch.data.leagueSchedules.nodes ∧
      (update env s).1.x_schedule =
        getSchedule XNode.startTime XNode.endTime env.now
          env.schedules_fetch.data.xSchedules.nodes ∧
      (update env s).1.coop_schedule =
        getSchedule CoopNode.startTime CoopNode.endTime env.now
          env.schedules_fetch.data.coopGroupingSchedule.regularSchedules.nodes) := by
  cases hr : getSchedule RegularNode.startTime RegularNode.endTime env.now
      ((s.cached_schedules.map fun cs => cs.data.regularSchedules.nodes).getD []) with
  | some v =>
    refine ⟨?_, ?_, ?_⟩
    · simp [update, hr]
    · intro hall
      exfalso
      cases hcs : s.cached_schedules with
      | none => rw [hcs] at hr; simp [getSchedule] at hr
      | some cs =>
        rw [hcs] at hr
        have : getSchedule RegularNode.startTime RegularNode.endTime env.now
            cs.data.regularSchedules.nodes = none :=
          getSchedule_none_of_all_past _ _ _ _ (hall cs hcs).1
        simp only [Option.map_some', Option.getD_some] at hr
        rw [this] at hr
        exact Option.noConfusion hr
    · intro h1
      exfalso
      simp [update, hr] at h1
  | none =>
    refine ⟨?_, fun _ => ?_, fun _ => ?_⟩
    · simp [update, hr]
    · simp [update, hr]
    · simp [update, hr]

/-- C3 (witness): an `update()` cycle starting with no cached schedules
issues exactly one forced refetch and stores the refetched response. -/
theorem update_refetch_exactly_once_witness :
    (update { now := 5, friends_refetch := none,
              schedules_fetch := { data := emptyStageScheduleResult },
              presence_user := none } emptyMonitorState).2 = 1 ∧
    (update { now := 5, friends_refetch := none,
              schedules_fetch := { data := emptyStageScheduleResult },
              presence_user := none } emptyMonitorState).1.cached_schedules =
      some { data := emptyStageScheduleResult } := by
  have h := update_refetch_exactly_once
    { now := 5, friends_refetch := none,
      schedules_fetch := { data := emptyStageScheduleResult },
      presence_user := none } emptyMonitorState
  have hcount := h.2.1 fun cs hcs => nomatch hcs
  exact ⟨hcount, (h.2.2 hcount).1⟩

/-! ### Claim C7 -/

/-- C7: the activity-builder callback leaves every field of the passed
activity descriptor unchanged — so the coordinator falls back to the base
descriptor — when no monitor instance is found, when the monitor has no
cached friend, or when the friend's online state is none of the four
states this monitor enriches (VS matching/fighting, co-op
matching/fighting). -/
theorem callback_no_enrichment_unchanged (a : Activity) (m : MonitorState) :
    callback a none = a ∧
    (m.friend = none → callback a (some m) = a) ∧
    (∀ f, m.friend = some f →
      f.onlineState ≠ FriendOnlineState.VS_MODE_MATCHING →
      f.onlineState ≠ FriendOnlineState.VS_MODE_FIGHTING →
      f.onlineState ≠ FriendOnlineState.COOP_MODE_MATCHING →
      f.onlineState ≠ FriendOnlineState.COOP_MODE_FIGHTING →
      callback a (some m) = a) := by
  refine ⟨rfl, ?_, ?_⟩
  · intro h
    simp [callback, h]
  · intro f hf h1 h2 h3 h4
    cases hv : f.vsMode with
    | none => simp [callback, hf, hv, h3, h4]
    | some vm => simp [callback, hf, hv, h1, h2, h3, h4]

/-- C7 (witness): with a cached friend that is merely online (not in a
match), a concrete activity descriptor passes through unchanged. -/
theorem callback_no_enrichment_unchanged_witness :
    callback { details := some "base", largeImageKey := none,
               largeImageText := none, smallImageKey := none,
               smallImageText := none }
      (some { emptyMonitorState with
              friend := some { id := "f", onlineState := FriendOnlineState.ONLINE,
                               vsMode := none } }) =
      { details := some "base", largeImageKey := none, largeImageText := none,
        smallImageKey := none, smallImageText := none } :=
  (callback_no_enrichment_unchanged
    { details := some "base", largeImageKey := none, largeImageText := none,
      smallImageKey := none, smallImageText := none }
    { emptyMonitorState with
      friend := some { id := "f", onlineState := FriendOnlineState.ONLINE,
                       vsMode := none } }).2.2
    { id := "f", onlineState := FriendOnlineState.ONLINE, vsMode := none }
    rfl (by decide) (by decide) (by decide) (by decide)

/-! ### Claim C6 -/

/-- C6 (counterexample): the claim says that for a friend in-match with
mode tag `M` and a monitor whose cached schedules have exactly one entry
active for mode `M` with payload `P`, the details field derives from
`P`'s match setting.  For `M = FEST` this fails: with a unique active
fest entry whose setting rule is "Tricolor Turf War", the source's
`FEST` branch reads `monitor.regular_schedule`, and the produced details
are "Splatfest Battle - Turf War" — derived from the active regular
entry, not from the fest payload. -/
theorem callback_fest_details_counterexample :
    (callback emptyActivity (some sampleFestMonitor)).details =
      some "Splatfest Battle - Turf War" ∧
    getSchedule FestNode.startTime FestNode.endTime 5
      sampleFestSchedules.festSchedules.nodes = some sampleFestNode ∧
    (sampleFestNode.festMatchSetting.map fun sc => sc.vsRule.name) =
      some "Tricolor Turf War" ∧
    some "Splatfest Battle - Turf War" ≠
      some ("Splatfest Battle" ++ (" - " ++ "Tricolor Turf War")) := by
  refine ⟨?_, by decide, by decide, by decide⟩
  decide

/-- C6 (amended): for a friend in-match (VS matching or fighting) with
vsMode `vm`, and a monitor whose schedule list for `vm`'s kind contains
exactly one entry `P` active at `now` — the selection `update()` stores
being `getSchedule` of that list — the details field is derived from
`P`'s match setting's rule name.  This holds for the modes `REGULAR`,
`LEAGUE` and `X_MATCH`, and for `BANKARA` under the recognised Series /
Open submode ids with the setting `P` carries for that submode; for
`FEST` the source instead derives details from the regular schedule's
setting (see the counterexample). -/
theorem callback_details_from_active_entry (a : Activity) (m : MonitorState)
    (f : Friend) (vm : VsMode) (now : Int)
    (hf : m.friend = some f)
    (hON : f.onlineState = FriendOnlineState.VS_MODE_MATCHING ∨
           f.onlineState = FriendOnlineState.VS_MODE_FIGHTING)
    (hvm : f.vsMode = some vm) :
    (∀ (l : List RegularNode) (P : RegularNode) (S : VsSetting),
      vm.mode = "REGULAR" →
      P ∈ l →
      scheduleActive RegularNode.startTime RegularNode.endTime now P →
      (∀ y ∈ l, scheduleActive RegularNode.startTime RegularNode.endTime now y → y = P) →
      m.regular_schedule = getSchedule RegularNode.startTime RegularNode.endTime now l →
      P.regularMatchSetting = some S →
      (callback a (some m)).details =
        some ((modeName f.vsMode).getD vm.name ++ (" - " ++ S.vsRule.name) ++
          (if f.onlineState = FriendOnlineState.VS_MODE_MATCHING
           then " (matching)" else ""))) ∧
    (∀ (l : List LeagueNode) (P : LeagueNode) (S : VsSetting),
      vm.mode = "LEAGUE" →
      P ∈ l →
      scheduleActive LeagueNode.startTime LeagueNode.endTime now P →
      (∀ y ∈ l, scheduleActive LeagueNode.startTime LeagueNode.endTime now y → y = P) →
      m.league_schedule = getSchedule LeagueNode.startTime LeagueNode.endTime now l →
      P.leagueMatchSetting = some S →
      (callback a (some m)).details =
        some ((modeName f.vsMode).getD vm.name ++ (" - " ++ S.vsRule.name) ++
          (if f.onlineState = FriendOnlineState.VS_MODE_MATCHING
           then " (matching)" else ""))) ∧
    (∀ (l : List XNode) (P : XNode) (S : VsSetting),
      vm.mode = "X_MATCH" →
      P ∈ l →
      scheduleActive XNode.startTime XNode.endTime now P →
      (∀ y ∈ l, scheduleActive XNode.startTime XNode.endTime now y → y = P) →
      m.x_schedule = getSchedule XNode.startTime XNode.endTime now l →
      P.xMatchSetting = some S →
      (callback a (some m)).details =
        some ((modeName f.vsMode).getD vm.name ++ (" - " ++ S.vsRule.name) ++
          (if f.onlineState = FriendOnlineState.VS_MODE_MATCHING
           then " (matching)" else ""))) ∧
    (∀ (l : List BankaraNode) (P : BankaraNode) (B : BankaraMatchSetting),
      vm.mode = "BANKARA" →
      vm.id = "VnNNb2RlLTI=" →
      P ∈ l →
      scheduleActive BankaraNode.startTime BankaraNode.endTime now P →
      (∀ y ∈ l, scheduleActive BankaraNode.startTime BankaraNode.endTime now y → y = P) →
      m.anarchy_schedule = getSchedule BankaraNode.startTime BankaraNode.endTime now l →
      P.bankaraMatchSettings.find? (fun st => st.mode == BankaraMatchMode.CHALLENGE) = some B →
      (callback a (some m)).details =
        some ((modeName f.vsMode).getD vm.name ++ (" - " ++ B.vsRule.name) ++
          (if f.onlineState = FriendOnlineState.VS_MODE_MATCHING
           then " (matching)" else ""))) ∧
    (∀ (l : List BankaraNode) (P : BankaraNode) (B : BankaraMatchSetting),
      vm.mode = "BANKARA" →
      vm.id = "VnNNb2RlLTUx" →
      P ∈ l →
      scheduleActive BankaraNode.startTime BankaraNode.endTime now P →
      (∀ y ∈ l, scheduleActive BankaraNode.startTime BankaraNode.endTime now y → y = P) →
      m.anarchy_schedule = getSchedule BankaraNode.startTime BankaraNode.endTime now l →
      P.bankaraMatchSettings.find? (fun st => st.mode == BankaraMatchMode.OPEN) = some B →
      (callback a (some m)).details =
        some ((modeName f.vsMode).getD vm.name ++ (" - " ++ B.vsRule.name) ++
          (if f.onlineState = FriendOnlineState.VS_MODE_MATCHING
           then " (matching)" else ""))) := by
  refine ⟨?_, ?_, ?_, ?_, ?_⟩
  · intro l P S hmode hmem hact huniq hsel hset
    have hselP : m.regular_schedule = some P :=
      hsel.trans (getSchedule_of_unique_active _ _ _ _ P hmem hact huniq)
    have hss : scheduleSetting m (some vm) = some S := by
      simp [scheduleSetting, hmode, hselP, hset]
    rcases hON with h | h <;>
      simp [callback, hf, hvm, h, hss, modeName]
  · intro l P S hmode hmem hact huniq hsel hset
    have hselP : m.league_schedule = some P :=
      hsel.trans (getSchedule_of_unique_active _ _ _ _ P hmem hact huniq)
    have hss : scheduleSetting m (some vm) = some S := by
      simp [scheduleSetting, hmode, hselP, hset]
    rcases hON with h | h <;>
      simp [callback, hf, hvm, h, hss, modeName]
  · intro l P S hmode hmem hact huniq hsel hset
    have hselP : m.x_schedule = some P :=
      hsel.trans (getSchedule_of_unique_active _ _ _ _ P hmem hact huniq)
    have hss : scheduleSetting m (some vm) = some S := by
      simp [scheduleSetting, hmode, hselP, hset]
    rcases hON with h | h <;>
      simp [callback, hf, hvm, h, hss, modeName]
  · intro l P B hmode hid hmem hact huniq hsel hfind
    have hselP : m.anarchy_schedule = some P :=
      hsel.trans (getSchedule_of_unique_active _ _ _ _ P hmem hact huniq)
    have hss : scheduleSetting m (some vm) = some B.toVsSetting := by
      simp [scheduleSetting, hmode, hid, hselP, hfind]
    rcases hON with h | h <;>
      simp [callback, hf, hvm, h, hss, modeName]
  · intro l P B hmode hid hmem hact huniq hsel hfind
    have hselP : m.anarchy_schedule = some P :=
      hsel.trans (getSchedule_of_unique_active _ _ _ _ P hmem hact huniq)
    have hss : scheduleSetting m (some vm) = some B.toVsSetting := by
      simp [scheduleSetting, hmode, hid, hselP, hfind]
    rcases hON with h | h <;>
      simp [callback, hf, hvm, h, hss, modeName]

/-- C6 (witness): a friend matchmaking for a Regular Battle with a unique
active regular entry whose rule is Turf War yields details derived from
that entry. -/
theorem callback_details_from_active_entry_witness :
    (callback emptyActivity (some sampleRegularMonitor)).details =
      some "Regular Battle - Turf War (matching)" := by
  have h := (callback_details_from_active_entry emptyActivity sampleRegularMonitor
      sampleRegularFriend
      { mode := "REGULAR", id := "VnNNb2RlLTE=", name := "Regular Battle" } 5
      rfl (Or.inl rfl) rfl).1
    [sampleRegularNode] sampleRegularNode
    { vsRule := { name := "Turf War" }, vsStages := [] }
    rfl (by decide) (by decide) (by decide) rfl (by decide)
  exact h.trans (by decide)

/-! ### Claim C8 -/

theorem cacheStep_in_flight_le {V E : Type} (minInterval : Int)
    (s : TenantCacheState V) (e : CacheEvent V E) (h : s.in_flight ≤ 1) :
    (cacheStep minInterval s e).in_flight ≤ 1 := by
  cases e with
  | request now caller =>
    simp only [cacheStep, cacheRequest]
    cases hf : cacheFresh minInterval now s with
    | some v => exact h
    | none =>
      by_cases hz : s.in_flight = 0
      · simp [hz]
      · simp only [if_neg hz]
        exact h
  | complete now result =>
    simp only [cacheStep, cacheComplete]
    omega

theorem cacheRun_go_in_flight_le {V E : Type} (minInterval : Int)
    (events : List (CacheEvent V E)) (s : TenantCacheState V)
    (h : s.in_flight ≤ 1) :
    (events.foldl (cacheStep minInterval) s).in_flight ≤ 1 := by
  induction events generalizing s with
  | nil => exact h
  | cons e rest ih =>
    exact ih _ (cacheStep_in_flight_le minInterval s e h)

/-- C8: over the spec-modelled tenant cache for one
`(account key, resource type)` pair: (1) along every interleaving of
request/completion events from the empty cache, at most one upstream
fetch is in flight at any time; (2) a request issues an upstream fetch
only when none is in flight; (3) a request arriving while a fetch is in
flight and not served by a fresh cached value issues no fetch and
attaches the caller to the in-flight request; (4) all callers attached to
a completing fetch receive the same result or the same failure; and
(5) a failure is never cached — the cached value is exactly what it was,
so the next caller retries. -/
theorem tenantCache_single_flight (V E : Type) :
    (∀ (minInterval : Int) (events : List (CacheEvent V E)),
      (cacheRun minInterval events).in_flight ≤ 1) ∧
    (∀ (minInterval now : Int) (caller : Nat) (s : TenantCacheState V),
      (cacheRequest minInterval now caller s).2.2 = 1 → s.in_flight = 0) ∧
    (∀ (minInterval now : Int) (caller : Nat) (s : TenantCacheState V),
      s.in_flight ≠ 0 → cacheFresh minInterval now s = none →
      (cacheRequest minInterval now caller s).2.2 = 0 ∧
      (cacheRequest minInterval now caller s).1.waiters = s.waiters ++ [caller]) ∧
    (∀ (now : Int) (result : Except E V) (s : TenantCacheState V)
        (p q : Nat × Except E V),
      p ∈ (cacheComplete now result s).2 → q ∈ (cacheComplete now result s).2 →
      p.2 = q.2) ∧
    (∀ (now : Int) (err : E) (s : TenantCacheState V),
      (cacheComplete now (Except.error err) s).1.cached = s.cached) := by
  refine ⟨?_, ?_, ?_, ?_, ?_⟩
  · intro minInterval events
    exact cacheRun_go_in_flight_le minInterval events _ (by simp)
  · intro minInterval now caller s h
    by_cases hz : s.in_flight = 0
    · exact hz
    · exfalso
      simp only [cacheRequest] at h
      cases hf : cacheFresh minInterval now s with
      | some v => rw [hf] at h; simp at h
      | none => rw [hf] at h; simp [hz] at h
  · intro minInterval now caller s hz hf
    simp [cacheRequest, hf, hz]
  · intro now result s p q hp hq
    simp only [cacheComplete, List.mem_map] at hp hq
    obtain ⟨c1, _, rfl⟩ := hp
    obtain ⟨c2, _, rfl⟩ := hq
    rfl
  · intro now err s
    rfl

/-- C8 (witness): a run with two concurrent requests and one completion
keeps at most one fetch in flight; a completion with two attached callers
hands both the same successful result; a request joining an in-flight
fetch issues no upstream call. -/
theorem tenantCache_single_flight_witness :
    (cacheRun (V := Nat) (E := Unit) 10
      [CacheEvent.request 0 1, CacheEvent.request 1 2,
       CacheEvent.complete 2 (Except.ok 7),
       CacheEvent.request 20 3]).in_flight ≤ 1 ∧
    (cacheRequest (V := Nat) 10 1 2
      { in_flight := 1, waiters := [1], cached := none }).2.2 = 0 ∧
    (cacheRequest (V := Nat) 10 1 2
      { in_flight := 1, waiters := [1], cached := none }).1.waiters = [1, 2] := by
  have h := tenantCache_single_flight Nat Unit
  refine ⟨h.1 10 _, ?_⟩
  have h3 := h.2.2.1 10 1 2 { in_flight := 1, waiters := [1], cached := none }
    (by decide) (by decide)
  exact ⟨h3.1, h3.2⟩
